import Mathlib

/-!
Verification of the MEX training entry point `sherwood_train_mex.cpp` of
sherwood-classify-matlab.  The file embeds `main_function` and `mexFunction`
as pure Lean functions: printed diagnostics become a trace of `Msg` values,
the MATLAB inputs become explicit records, and the OpenMP parallel loop is
modelled by an explicit completion order together with the accesses its body
performs on shared state.  Parts of the Sherwood library that the binding
calls (TreeTrainer, ForestTrainer, Forest serialization, the configuration
validation) live outside the embedded translation unit; they are modelled
from the specification, each with a doc comment saying so.
-/

namespace SherwoodMex

/-- Per-feature statistics (`Stats` in `sherwood_mex.h`): mean and standard
deviation of one feature dimension.  Values are abstracted to integers. -/
structure Stats where
  mean : Int
  stdev : Int
deriving DecidableEq

/-- The training data view (`DataPointCollection(features, labels)` at line 53):
dimensions F, class count, example count N, and the per-dimension statistics
`GetStats(d)`. -/
structure DataPointCollection where
  dimensions : Nat
  countClasses : Nat
  count : Nat
  getStats : Nat → Stats

/-- The weak-learner selector.  The enum itself is declared outside the
embedded file; `mexFunction` compares it against `AxisAligned` and
`RandomHyperplane`, so any further value is represented by `other`. -/
inductive WeakLearnerKind
  | axisAligned
  | randomHyperplane
  | other (tag : Nat)
deriving DecidableEq

/-- The option bundle consumed by `main_function` (fields read at lines
46-60, 68-84, 91-135, 151). -/
structure Options where
  MaxDecisionLevels : Int
  NumberOfCandidateFeatures : Int
  NumberOfCandidateThresholdsPerFeature : Int
  NumberOfTrees : Int
  MaxThreads : Int
  WeakLearner : WeakLearnerKind
  FeatureScaling : Bool
  Verbose : Bool
  ForestName : String
  WeakLearnerStr : String
deriving DecidableEq

/-- The Sherwood `TrainingParameters` fields the binding sets (lines 45-50). -/
structure TrainingParameters where
  MaxDecisionLevels : Int
  NumberOfCandidateFeatures : Int
  NumberOfCandidateThresholdsPerFeature : Int
  NumberOfTrees : Int
  Verbose : Bool
deriving DecidableEq

/-- Lines 45-50: the four counts are copied from the options and `Verbose`
is assigned the literal `false`. -/
def mkTrainingParameters (options : Options) : TrainingParameters :=
  { MaxDecisionLevels := options.MaxDecisionLevels
  , NumberOfCandidateFeatures := options.NumberOfCandidateFeatures
  , NumberOfCandidateThresholdsPerFeature := options.NumberOfCandidateThresholdsPerFeature
  , NumberOfTrees := options.NumberOfTrees
  , Verbose := false }

/-- Modelled from the spec: a trained decision tree (`Tree<F,S>`, Sherwood
library, not part of the embedded file).  Spec section 4.4: tree structure is
fully reproducible given the random sequence and the configuration, so a tree
is represented by the data that determines it. -/
structure Tree where
  seed : Nat
  params : TrainingParameters
  dims : Nat
deriving DecidableEq

/-- Modelled from the spec: `TreeTrainer<F,S>::TrainTree` (Sherwood library,
not part of the embedded file) grows one tree deterministically from the
random state, the parameters and the data (spec section 4.4). -/
def TrainTree (random : Nat) (params : TrainingParameters)
    (data : DataPointCollection) : Tree :=
  { seed := random, params := params, dims := data.dimensions }

/-- Modelled from the spec: drawing from the random sequence advances its
state (spec section 4.5, single-worker mode: each tree differs because the
state advances through the shared sequence). -/
def nextRandom (r : Nat) : Nat := r + 1

/-- Modelled from the spec: `ForestTrainer<F,S>::TrainForest` (Sherwood
library, not part of the embedded file).  Spec section 4.5, single-worker
mode: trains `NumberOfTrees` trees sequentially, each drawing from the shared
random sequence, appending each to the forest in completion order.  Returns
the forest and the final random state. -/
def TrainForest (random : Nat) (params : TrainingParameters)
    (data : DataPointCollection) : List Tree × Nat :=
  (List.range params.NumberOfTrees.toNat).foldl
    (fun acc _ => (acc.1 ++ [TrainTree acc.2 params data], nextRandom acc.2))
    ([], random)

/-- One printed diagnostic; each constructor corresponds to one `mexPrintf`
site of `sherwood_train_mex.cpp` (lines 56, 59, 71, 79, 92, 105, 126). -/
inductive Msg
  | dataSummary (dims classes count : Nat)
  | weakLearnerUsed (name : String)
  | noScalingNote
  | featureStatLine (d : Nat) (s : Stats)
  | ompFallback
  | usingOneThread
  | usingOpenMPThreads (threads : Int)
deriving DecidableEq

/-- Lines 65-82, the value side: when `FeatureScaling` is enabled,
`featureStats` receives `trainingData.GetStats(d)` for every `d` below
`Dimensions()`; otherwise it stays empty.  This vector is handed to the
`FeatureFactory` at line 84. -/
def computeFeatureStats (options : Options) (data : DataPointCollection) :
    List Stats :=
  if options.FeatureScaling then (List.range data.dimensions).map data.getStats
  else []

/-- Lines 68-82, the printing side: without scaling, the note at line 71 is
printed only when `Verbose` is set and the weak learner is not axis-aligned;
with scaling, one stats line per dimension is printed when `Verbose` is set. -/
def featureScalingTrace (options : Options) (data : DataPointCollection) :
    List Msg :=
  if options.FeatureScaling then
    if options.Verbose then
      (List.range data.dimensions).map
        (fun d => Msg.featureStatLine d (data.getStats d))
    else []
  else
    if options.Verbose = true ∧ options.WeakLearner ≠ WeakLearnerKind.axisAligned
    then [Msg.noScalingNote]
    else []

/-- Lines 89-96: when the build has no OpenMP (`USE_OPENMP == 0`), a fallback
message is printed if more than one thread was requested, and `MaxThreads`
is set to 1 unconditionally.  With OpenMP the options pass through. -/
def applyOpenMPFallback (useOpenMP : Bool) (options : Options) :
    Options × List Msg :=
  if useOpenMP then (options, [])
  else ({ options with MaxThreads := 1 },
        if options.MaxThreads > 1 then [Msg.ompFallback] else [])

/-- Lines 134-143: the body of the `omp parallel for` runs once per index
`t` in `[0, NumberOfTrees)`; the order in which iterations complete and
append is some permutation of those indices, and each append puts one tree
at the end of the forest.  `order` is the completion order and `treeAt t`
the tree produced by iteration `t` (its content depends on the interleaved
draws from the shared `Random`). -/
def parallelTrainForest (order : List Nat) (treeAt : Nat → Tree) : List Tree :=
  order.foldl (fun forest t => forest ++ [treeAt t]) []

/-- Modelled from the spec: `Forest<F,S>::Serialize` (Sherwood library, not
part of the embedded file) writes a deterministic binary encoding of each
tree in order (spec section 4.6); a tree record is abbreviated to the
encoding of its determining data. -/
def encodeTree (t : Tree) : List Nat :=
  [t.seed, t.params.MaxDecisionLevels.toNat, t.params.NumberOfCandidateFeatures.toNat,
   t.params.NumberOfCandidateThresholdsPerFeature.toNat,
   t.params.NumberOfTrees.toNat, t.dims]

/-- Modelled from the spec: the serialized artifact is the concatenation of
the tree records in forest order (spec section 4.6). -/
def serializeForest (forest : List Tree) : List Nat :=
  (forest.map encodeTree).flatten

/-- Lines 150-152: the output stream is opened and `Serialize` is called with
no check of the open or write status.  A C++ `ofstream` that failed to open
discards writes and raises nothing, so the step always returns successfully;
the bytes reach the file only when the open succeeded. -/
def saveForestStep (openOk : Bool) (forest : List Tree) :
    Except String (Option (List Nat)) :=
  Except.ok (if openOk then some (serializeForest forest) else none)

/-- Everything observable about one `main_function` run: the printed trace,
the `TrainingParameters` handed to the trainer, the `featureStats` handed to
the factory, the trained forest, and the outcome of the save step. -/
structure RunResult where
  trace : List Msg
  trainingParams : TrainingParameters
  featureStats : List Stats
  forest : List Tree
  artifact : Except String (Option (List Nat))

/-- The embedding of `main_function` (lines 31-153).  `useOpenMP` is the
compile-time `USE_OPENMP` flag, `openOk` whether the output file opened,
`random` the initial state of the random sequence, and `order`/`treeAt` the
schedule oracle of the parallel branch (unused in the single-thread branch). -/
def main_function (useOpenMP : Bool) (openOk : Bool) (options : Options)
    (data : DataPointCollection) (random : Nat)
    (order : List Nat) (treeAt : Nat → Tree) : RunResult :=
  let tp := mkTrainingParameters options
  let headerTrace : List Msg :=
    if options.Verbose then
      [Msg.dataSummary data.dimensions data.countClasses data.count,
       Msg.weakLearnerUsed options.WeakLearnerStr]
    else []
  let fallback := applyOpenMPFallback useOpenMP options
  let forestAndTrace : List Tree × List Msg :=
    if fallback.1.MaxThreads = 1 then
      ((TrainForest random tp data).1, [Msg.usingOneThread])
    else
      (parallelTrainForest order treeAt,
       if options.Verbose then [Msg.usingOpenMPThreads fallback.1.MaxThreads]
       else [])
  { trace := headerTrace ++ featureScalingTrace options data ++ fallback.2
      ++ forestAndTrace.2
  , trainingParams := tp
  , featureStats := computeFeatureStats options data
  , forest := forestAndTrace.1
  , artifact := saveForestStep openOk forestAndTrace.1 }

/-- The feature-response template argument chosen by `mexFunction`. -/
inductive Variant
  | axisAlignedFR
  | randomHyperplaneFR
  | randomHyperplaneNormalizedFR
deriving DecidableEq

/-- Lines 160-168: the dispatch of `mexFunction`.  Axis-aligned always takes
the plain variant; a random hyperplane takes the normalized variant exactly
when feature scaling is on; any other selector matches no branch. -/
def selectVariant (options : Options) : Option Variant :=
  if options.WeakLearner = WeakLearnerKind.axisAligned then
    some Variant.axisAlignedFR
  else if options.WeakLearner = WeakLearnerKind.randomHyperplane ∧
      options.FeatureScaling = false then
    some Variant.randomHyperplaneFR
  else if options.WeakLearner = WeakLearnerKind.randomHyperplane ∧
      options.FeatureScaling = true then
    some Variant.randomHyperplaneNormalizedFR
  else none

/-- Lines 155-170: `mexFunction` runs `main_function` for the selected
variant; when no branch matches it falls through and returns with no
training, no output and no error — modelled by `none`. -/
def mexFunction (useOpenMP : Bool) (openOk : Bool) (options : Options)
    (data : DataPointCollection) (random : Nat)
    (order : List Nat) (treeAt : Nat → Tree) : Option RunResult :=
  match selectVariant options with
  | some _ => some (main_function useOpenMP openOk options data random order treeAt)
  | none => none

/-- The raw MATLAB inputs behind the `DataPointCollection`: feature-matrix
dimensions F × N, the label vector, and the number of classes. -/
structure RawInput where
  featureDims : Nat
  featureCols : Nat
  labels : List Nat
  numClasses : Nat
deriving DecidableEq

/-- The configuration errors of spec section 7. -/
inductive ConfigError
  | nonPositiveMaxDecisionLevels
  | nonPositiveCandidateFeatures
  | nonPositiveCandidateThresholds
  | nonPositiveNumberOfTrees
  | labelOutOfRange
  | countMismatch
deriving DecidableEq

/-- Modelled from the spec: the configuration validation performed by the
library and binding layers outside the embedded file (spec section 7:
configuration errors are validated once at the start and are fatal).
Checks, in the order the spec lists them: positive depth, candidate counts
and tree count; every label below `numClasses`; label count matching the
feature-matrix column count. -/
def validateConfiguration (options : Options) (inp : RawInput) :
    Option ConfigError :=
  if options.MaxDecisionLevels ≤ 0 then some ConfigError.nonPositiveMaxDecisionLevels
  else if options.NumberOfCandidateFeatures ≤ 0 then
    some ConfigError.nonPositiveCandidateFeatures
  else if options.NumberOfCandidateThresholdsPerFeature ≤ 0 then
    some ConfigError.nonPositiveCandidateThresholds
  else if options.NumberOfTrees ≤ 0 then some ConfigError.nonPositiveNumberOfTrees
  else if ∃ l ∈ inp.labels, inp.numClasses ≤ l then some ConfigError.labelOutOfRange
  else if inp.labels.length ≠ inp.featureCols then some ConfigError.countMismatch
  else none

/-- The validated run: a configuration error aborts before any training
work; otherwise `main_function` runs on the data view built from the raw
input. -/
def checkedRun (useOpenMP : Bool) (openOk : Bool) (options : Options)
    (inp : RawInput) (stats : Nat → Stats) (random : Nat)
    (order : List Nat) (treeAt : Nat → Tree) : Except ConfigError RunResult :=
  (validateConfiguration options inp).elim
    (Except.ok (main_function useOpenMP openOk options
      { dimensions := inp.featureDims, countClasses := inp.numClasses,
        count := inp.labels.length, getStats := stats } random order treeAt))
    Except.error

/-- How many trees a run trained: none when it aborted on validation. -/
def treesTrained : Except ConfigError RunResult → Nat
  | Except.error _ => 0
  | Except.ok res => res.forest.length

/-- The shared variables visible to the workers of the parallel loop. -/
inductive SharedVar
  | forestTrees
  | randomSource
  | trainingDataVar
deriving DecidableEq

/-- One access to a shared variable by an iteration of the parallel loop
body: whether it mutates the variable and whether it happens while the
`writelock` of lines 131-145 is held. -/
structure SharedAccess where
  var : SharedVar
  mutates : Bool
  locked : Bool
deriving DecidableEq

/-- The accesses each iteration of the `omp parallel for` body (lines
135-143) performs on shared state, read off the source: `TrainTree(random,
classificationContext, trainingParameters, trainingData)` at line 137 draws
from the shared `Random` declared at line 62 — advancing its state — and
reads the immutable `trainingData`, both outside any lock; `forest->AddTree`
at line 141 mutates the tree collection between `omp_set_lock` and
`omp_unset_lock`. -/
def parallelBodyAccesses : List SharedAccess :=
  [ { var := SharedVar.randomSource, mutates := true, locked := false },
    { var := SharedVar.trainingDataVar, mutates := false, locked := false },
    { var := SharedVar.forestTrees, mutates := true, locked := true } ]

/-! ## Concrete sample inputs used to evaluate the theorems -/

/-- A small concrete dataset view: 3 features, 2 classes, 4 examples. -/
def sampleData : DataPointCollection :=
  { dimensions := 3, countClasses := 2, count := 4,
    getStats := fun _ => { mean := 0, stdev := 1 } }

/-- A concrete valid option bundle. -/
def sampleOptions : Options :=
  { MaxDecisionLevels := 5, NumberOfCandidateFeatures := 10,
    NumberOfCandidateThresholdsPerFeature := 10, NumberOfTrees := 2,
    MaxThreads := 1, WeakLearner := WeakLearnerKind.axisAligned,
    FeatureScaling := false, Verbose := false,
    ForestName := "forest.bin", WeakLearnerStr := "axis-aligned" }

/-- A concrete schedule oracle for the parallel branch. -/
def sampleTreeAt : Nat → Tree :=
  fun t => { seed := t, params := mkTrainingParameters sampleOptions, dims := 3 }

/-- Options selecting the normalized random-hyperplane variant. -/
def c4Options : Options :=
  { sampleOptions with
      WeakLearner := WeakLearnerKind.randomHyperplane
      FeatureScaling := true }

/-- Options requesting 4 threads. -/
def c3Options : Options :=
  { sampleOptions with MaxThreads := 4 }

/-- Options hitting the silent branch of the C8 counterexample: scaling off,
verbosity off, random-hyperplane learner. -/
def c8Options : Options :=
  { sampleOptions with WeakLearner := WeakLearnerKind.randomHyperplane }

/-- A raw input whose label count does not match the matrix columns. -/
def badInput : RawInput :=
  { featureDims := 3, featureCols := 4, labels := [0, 1], numClasses := 2 }

/-! ## Helper lemmas -/

theorem foldl_append_tree_length (params : TrainingParameters)
    (data : DataPointCollection) :
    ∀ (l : List Nat) (ts : List Tree) (r : Nat),
      ((l.foldl
        (fun acc _ => (acc.1 ++ [TrainTree acc.2 params data], nextRandom acc.2))
        (ts, r)).1).length = ts.length + l.length := by
  intro l
  induction l with
  | nil => intro ts r; simp
  | cons x xs ih =>
      intro ts r
      simp only [List.foldl_cons, List.length_cons]
      rw [ih]
      simp
      omega

theorem trainForest_length (random : Nat) (params : TrainingParameters)
    (data : DataPointCollection) :
    (TrainForest random params data).1.length = params.NumberOfTrees.toNat := by
  unfold TrainForest
  rw [foldl_append_tree_length]
  simp

theorem parallelTrainForest_eq_map (order : List Nat) (treeAt : Nat → Tree) :
    parallelTrainForest order treeAt = order.map treeAt := by
  unfold parallelTrainForest
  have h : ∀ (l : List Nat) (acc : List Tree),
      l.foldl (fun forest t => forest ++ [treeAt t]) acc = acc ++ l.map treeAt := by
    intro l
    induction l with
    | nil => intro acc; simp
    | cons x xs ih => intro acc; simp [ih]
  simpa using h order []

theorem fallback_maxThreads_of_noOpenMP (options : Options) :
    (applyOpenMPFallback false options).1.MaxThreads = 1 := by
  simp [applyOpenMPFallback]

/-! ## Claims -/

/-- C10: for every option bundle, the `TrainingParameters` handed to the
trainer by the run are exactly `mkTrainingParameters options`, whose
`Verbose` field is `false` regardless of the caller-supplied Verbose
option; the caller's flag only gates the binding layer's own printed
diagnostics. -/
theorem c10_trainer_verbose_always_false (useOpenMP openOk : Bool)
    (options : Options) (data : DataPointCollection) (random : Nat)
    (order : List Nat) (treeAt : Nat → Tree) :
    (main_function useOpenMP openOk options data random order treeAt).trainingParams
      = mkTrainingParameters options ∧
    (mkTrainingParameters options).Verbose = false :=
  ⟨rfl, rfl⟩

/-- C2 (counterexample): it is not the case that every mutating access to
shared state by an iteration of the parallel loop body is a locked append
to the forest's tree collection: the shared random-number source is
mutated outside the lock. -/
theorem c2_only_locked_append_counterexample :
    ¬ (∀ a ∈ parallelBodyAccesses, a.mutates = true →
        a.var = SharedVar.forestTrees ∧ a.locked = true) := by
  decide

/-- C2 (amended): every access the parallel loop body makes to the
forest's tree collection is inside the mutual-exclusion section, but the
shared random-number source is also mutated by the workers outside any
lock. -/
theorem c2_append_locked_random_unlocked :
    (∀ a ∈ parallelBodyAccesses,
      a.var = SharedVar.forestTrees → a.locked = true) ∧
    (∃ a ∈ parallelBodyAccesses, a.var = SharedVar.randomSource ∧
      a.mutates = true ∧ a.locked = false) := by
  decide

/-- C7 (counterexample): with the output file failing to open, the run
still completes with a successful save step and trains the full forest;
nothing aborts, the artifact is simply absent. -/
theorem c7_silent_io_failure_counterexample :
    (main_function true false sampleOptions sampleData 0 [] sampleTreeAt).artifact
      = Except.ok none ∧
    (main_function true false sampleOptions sampleData 0 [] sampleTreeAt).forest.length
      = 2 :=
  ⟨rfl, rfl⟩

/-- C7 (amended): the save step never fails: for every run the artifact
result is `Except.ok`, holding the serialized bytes when the file opened
and nothing when the open failed — an open failure is not detected and
the run completes silently with a missing artifact. -/
theorem c7_save_step_never_fails (useOpenMP openOk : Bool) (options : Options)
    (data : DataPointCollection) (random : Nat) (order : List Nat)
    (treeAt : Nat → Tree) :
    (main_function useOpenMP openOk options data random order treeAt).artifact
      = Except.ok (if openOk then
          some (serializeForest
            (main_function useOpenMP openOk options data random order treeAt).forest)
        else none) :=
  rfl

/-- C9: when the selector is neither axis-aligned nor random hyperplane,
`mexFunction` matches no dispatch branch: no variant is selected and the
call returns without training, without output and without error. -/
theorem c9_unknown_learner_silent_noop (useOpenMP openOk : Bool)
    (options : Options) (data : DataPointCollection) (random : Nat)
    (order : List Nat) (treeAt : Nat → Tree) (tag : Nat)
    (h : options.WeakLearner = WeakLearnerKind.other tag) :
    selectVariant options = none ∧
    mexFunction useOpenMP openOk options data random order treeAt = none := by
  have hsel : selectVariant options = none := by
    unfold selectVariant
    rw [h]
    simp
  exact ⟨hsel, by unfold mexFunction; rw [hsel]⟩

/-- C9 witness: evaluated at a concrete unrecognized selector. -/
theorem c9_unknown_learner_silent_noop_witness :
    selectVariant { sampleOptions with WeakLearner := WeakLearnerKind.other 7 } = none ∧
    mexFunction true true { sampleOptions with WeakLearner := WeakLearnerKind.other 7 }
      sampleData 0 [] sampleTreeAt = none :=
  c9_unknown_learner_silent_noop true true
    { sampleOptions with WeakLearner := WeakLearnerKind.other 7 }
    sampleData 0 [] sampleTreeAt 7 rfl

/-- C4: the normalized random-hyperplane variant is selected exactly when
the weak learner is the random hyperplane and feature scaling is enabled,
and in that case the `featureStats` vector handed to the factory holds one
entry per feature dimension and is non-empty, so the variant's
non-empty-statistics precondition cannot be violated at a use site. -/
theorem c4_normalized_variant_iff_scaling (options : Options)
    (data : DataPointCollection) (hd : 0 < data.dimensions) :
    (selectVariant options = some Variant.randomHyperplaneNormalizedFR ↔
      options.WeakLearner = WeakLearnerKind.randomHyperplane ∧
        options.FeatureScaling = true) ∧
    (selectVariant options = some Variant.randomHyperplaneNormalizedFR →
      (computeFeatureStats options data).length = data.dimensions ∧
        computeFeatureStats options data ≠ []) := by
  have hiff : selectVariant options = some Variant.randomHyperplaneNormalizedFR ↔
      options.WeakLearner = WeakLearnerKind.randomHyperplane ∧
        options.FeatureScaling = true := by
    cases hW : options.WeakLearner <;> cases hF : options.FeatureScaling <;>
      simp [selectVariant, hW, hF]
  refine ⟨hiff, fun hsel => ?_⟩
  have h2 := (hiff.mp hsel).2
  constructor
  · simp [computeFeatureStats, h2]
  · simp only [computeFeatureStats, h2, if_true]
    simp [List.map_eq_nil_iff, List.range_eq_nil]
    omega

/-- C4 witness: evaluated at the concrete normalized configuration. -/
theorem c4_normalized_variant_iff_scaling_witness :
    0 < sampleData.dimensions ∧
    ((selectVariant c4Options = some Variant.randomHyperplaneNormalizedFR ↔
      c4Options.WeakLearner = WeakLearnerKind.randomHyperplane ∧
        c4Options.FeatureScaling = true) ∧
    (selectVariant c4Options = some Variant.randomHyperplaneNormalizedFR →
      (computeFeatureStats c4Options sampleData).length = sampleData.dimensions ∧
        computeFeatureStats c4Options sampleData ≠ [])) :=
  ⟨by decide, c4_normalized_variant_iff_scaling c4Options sampleData (by decide)⟩

/-- C3: compiled without OpenMP while more than one thread is requested:
the effective thread count becomes 1, the fallback message is printed, and
the run proceeds non-fatally through the single-thread `TrainForest` path. -/
theorem c3_openmp_fallback (openOk : Bool) (options : Options)
    (data : DataPointCollection) (random : Nat) (order : List Nat)
    (treeAt : Nat → Tree) (h : 1 < options.MaxThreads) :
    (applyOpenMPFallback false options).1.MaxThreads = 1 ∧
    Msg.ompFallback ∈
      (main_function false openOk options data random order treeAt).trace ∧
    (main_function false openOk options data random order treeAt).forest
      = (TrainForest random (mkTrainingParameters options) data).1 := by
  refine ⟨fallback_maxThreads_of_noOpenMP options, ?_, ?_⟩
  · simp [main_function, applyOpenMPFallback, h]
  · simp [main_function, applyOpenMPFallback]

/-- C3 witness: evaluated at a concrete 4-thread request without OpenMP. -/
theorem c3_openmp_fallback_witness :
    1 < c3Options.MaxThreads ∧
    ((applyOpenMPFallback false c3Options).1.MaxThreads = 1 ∧
    Msg.ompFallback ∈
      (main_function false true c3Options sampleData 0 [] sampleTreeAt).trace ∧
    (main_function false true c3Options sampleData 0 [] sampleTreeAt).forest
      = (TrainForest 0 (mkTrainingParameters c3Options) sampleData).1) :=
  ⟨by decide, c3_openmp_fallback true c3Options sampleData 0 [] sampleTreeAt (by decide)⟩

/-- C5: with `MaxThreads = 1` the run is deterministic: two runs with the
same configuration, data and random sequence produce the same forest and a
bit-identical artifact, independently of the parallel schedule oracle,
which the single-thread branch never consults. -/
theorem c5_single_thread_deterministic (useOpenMP openOk : Bool)
    (options : Options) (data : DataPointCollection) (random : Nat)
    (orderA orderB : List Nat) (treeAtA treeAtB : Nat → Tree)
    (h : options.MaxThreads = 1) :
    (main_function useOpenMP openOk options data random orderA treeAtA).artifact
      = (main_function useOpenMP openOk options data random orderB treeAtB).artifact ∧
    (main_function useOpenMP openOk options data random orderA treeAtA).forest
      = (main_function useOpenMP openOk options data random orderB treeAtB).forest := by
  have hmt : (applyOpenMPFallback useOpenMP options).1.MaxThreads = 1 := by
    cases useOpenMP
    · exact fallback_maxThreads_of_noOpenMP options
    · simpa [applyOpenMPFallback] using h
  constructor <;> simp [main_function, hmt]

/-- C5 witness: two concrete runs with the same seed and configuration but
different schedule oracles yield the same forest and artifact. -/
theorem c5_single_thread_deterministic_witness :
    sampleOptions.MaxThreads = 1 ∧
    ((main_function true true sampleOptions sampleData 0 [0] sampleTreeAt).artifact
      = (main_function true true sampleOptions sampleData 0 [1, 2]
          (fun t => { seed := t + 5, params := mkTrainingParameters sampleOptions,
                      dims := 1 })).artifact ∧
    (main_function true true sampleOptions sampleData 0 [0] sampleTreeAt).forest
      = (main_function true true sampleOptions sampleData 0 [1, 2]
          (fun t => { seed := t + 5, params := mkTrainingParameters sampleOptions,
                      dims := 1 })).forest) :=
  ⟨rfl, c5_single_thread_deterministic true true sampleOptions sampleData 0 [0] [1, 2]
    sampleTreeAt
    (fun t => { seed := t + 5, params := mkTrainingParameters sampleOptions, dims := 1 })
    rfl⟩

/-- C1: for every valid configuration the trained forest contains exactly
`NumberOfTrees` trees: the single-thread branch delegates to one
`TrainForest` call with the parameters, and the parallel branch appends
one tree per loop index, the completion order being a permutation of the
indices `[0, NumberOfTrees)`, so no tree is lost or duplicated. -/
theorem c1_forest_has_numberOfTrees (useOpenMP openOk : Bool)
    (options : Options) (data : DataPointCollection) (random : Nat)
    (order : List Nat) (treeAt : Nat → Tree)
    (hn : 0 < options.NumberOfTrees)
    (hperm : order.Perm (List.range options.NumberOfTrees.toNat)) :
    ((main_function useOpenMP openOk options data random order treeAt).forest.length : Int)
      = options.NumberOfTrees ∧
    (parallelTrainForest order treeAt).Perm
      ((List.range options.NumberOfTrees.toNat).map treeAt) ∧
    ((applyOpenMPFallback useOpenMP options).1.MaxThreads = 1 →
      (main_function useOpenMP openOk options data random order treeAt).forest
        = (TrainForest random (mkTrainingParameters options) data).1) := by
  have hlen : (main_function useOpenMP openOk options data random order treeAt).forest.length
      = options.NumberOfTrees.toNat := by
    by_cases hmt : (applyOpenMPFallback useOpenMP options).1.MaxThreads = 1
    · simp [main_function, hmt, trainForest_length, mkTrainingParameters]
    · simp [main_function, hmt, parallelTrainForest_eq_map, hperm.length_eq]
  refine ⟨?_, ?_, ?_⟩
  · rw [hlen]
    exact Int.toNat_of_nonneg (le_of_lt hn)
  · rw [parallelTrainForest_eq_map]
    exact hperm.map treeAt
  · intro hmt
    simp [main_function, hmt]

/-- C1 witness: evaluated with OpenMP, 3 requested threads, 2 trees and
the completion order `[1, 0]`. -/
theorem c1_forest_has_numberOfTrees_witness :
    0 < ({ sampleOptions with MaxThreads := 3 } : Options).NumberOfTrees ∧
    [1, 0].Perm (List.range ({ sampleOptions with MaxThreads := 3 } : Options).NumberOfTrees.toNat) ∧
    (((main_function true true { sampleOptions with MaxThreads := 3 } sampleData 0
        [1, 0] sampleTreeAt).forest.length : Int)
      = ({ sampleOptions with MaxThreads := 3 } : Options).NumberOfTrees ∧
    (parallelTrainForest [1, 0] sampleTreeAt).Perm
      ((List.range ({ sampleOptions with MaxThreads := 3 } : Options).NumberOfTrees.toNat).map
        sampleTreeAt) ∧
    ((applyOpenMPFallback true { sampleOptions with MaxThreads := 3 }).1.MaxThreads = 1 →
      (main_function true true { sampleOptions with MaxThreads := 3 } sampleData 0
        [1, 0] sampleTreeAt).forest
        = (TrainForest 0 (mkTrainingParameters { sampleOptions with MaxThreads := 3 })
            sampleData).1)) :=
  ⟨by decide, by decide,
    c1_forest_has_numberOfTrees true true { sampleOptions with MaxThreads := 3 }
      sampleData 0 [1, 0] sampleTreeAt (by decide) (by decide)⟩

/-- C6: each listed configuration error — non-positive depth, candidate
counts or tree count, a label at or above the class count, a label/column
count mismatch — is caught by the start-of-run validation, and the checked
run aborts with that error before any tree is trained. -/
theorem c6_config_errors_abort (useOpenMP openOk : Bool) (options : Options)
    (inp : RawInput) (stats : Nat → Stats) (random : Nat) (order : List Nat)
    (treeAt : Nat → Tree)
    (hbad : options.MaxDecisionLevels ≤ 0 ∨ options.NumberOfCandidateFeatures ≤ 0 ∨
      options.NumberOfCandidateThresholdsPerFeature ≤ 0 ∨
      options.NumberOfTrees ≤ 0 ∨ (∃ l ∈ inp.labels, inp.numClasses ≤ l) ∨
      inp.labels.length ≠ inp.featureCols) :
    ∃ e, validateConfiguration options inp = some e ∧
      checkedRun useOpenMP openOk options inp stats random order treeAt
        = Except.error e ∧
      treesTrained (checkedRun useOpenMP openOk options inp stats random order treeAt)
        = 0 := by
  have hne : validateConfiguration options inp ≠ none := by
    unfold validateConfiguration
    split_ifs <;> simp_all
  obtain ⟨e, he⟩ := Option.ne_none_iff_exists.mp hne
  have hcr : checkedRun useOpenMP openOk options inp stats random order treeAt
      = Except.error e := by
    unfold checkedRun
    rw [← he]
    rfl
  refine ⟨e, he.symm, hcr, ?_⟩
  rw [hcr]
  rfl

/-- C6 witness: a concrete configuration with a zero tree count and a
label/column mismatch aborts before training. -/
theorem c6_config_errors_abort_witness :
    (({ sampleOptions with NumberOfTrees := 0 } : Options).MaxDecisionLevels ≤ 0 ∨
      ({ sampleOptions with NumberOfTrees := 0 } : Options).NumberOfCandidateFeatures ≤ 0 ∨
      ({ sampleOptions with NumberOfTrees := 0 } : Options).NumberOfCandidateThresholdsPerFeature ≤ 0 ∨
      ({ sampleOptions with NumberOfTrees := 0 } : Options).NumberOfTrees ≤ 0 ∨
      (∃ l ∈ badInput.labels, badInput.numClasses ≤ l) ∨
      badInput.labels.length ≠ badInput.featureCols) ∧
    (∃ e, validateConfiguration { sampleOptions with NumberOfTrees := 0 } badInput = some e ∧
      checkedRun true true { sampleOptions with NumberOfTrees := 0 } badInput
        (fun _ => { mean := 0, stdev := 1 }) 0 [] sampleTreeAt = Except.error e ∧
      treesTrained (checkedRun true true { sampleOptions with NumberOfTrees := 0 } badInput
        (fun _ => { mean := 0, stdev := 1 }) 0 [] sampleTreeAt) = 0) :=
  ⟨by decide,
    c6_config_errors_abort true true { sampleOptions with NumberOfTrees := 0 } badInput
      (fun _ => { mean := 0, stdev := 1 }) 0 [] sampleTreeAt (by decide)⟩

/-- C8 (counterexample): with `Verbose` off, feature scaling off and a
random-hyperplane learner, the no-scaling note is not in the trace even
though training runs to completion, so the note is not surfaced for every
such configuration as the claim states. -/
theorem c8_note_not_surfaced_counterexample :
    Msg.noScalingNote ∉
      (main_function true true c8Options sampleData 0 [] sampleTreeAt).trace ∧
    (main_function true true c8Options sampleData 0 [] sampleTreeAt).forest.length
      = 2 := by
  constructor
  · decide
  · rfl

/-- C8 (amended): with feature scaling disabled and a weak learner other
than axis-aligned, the no-scaling note is surfaced exactly when the
`Verbose` option is set, and in every case the run proceeds with an empty
feature-statistics vector. -/
theorem c8_note_iff_verbose (useOpenMP openOk : Bool) (options : Options)
    (data : DataPointCollection) (random : Nat) (order : List Nat)
    (treeAt : Nat → Tree) (hfs : options.FeatureScaling = false)
    (hwl : options.WeakLearner ≠ WeakLearnerKind.axisAligned) :
    (Msg.noScalingNote ∈
        (main_function useOpenMP openOk options data random order treeAt).trace
      ↔ options.Verbose = true) ∧
    (main_function useOpenMP openOk options data random order treeAt).featureStats
      = [] := by
  constructor
  · cases hv : options.Verbose <;>
      simp [main_function, featureScalingTrace, applyOpenMPFallback, hfs, hv, hwl] <;>
        split_ifs <;> simp_all
  · simp [main_function, computeFeatureStats, hfs]

/-- C8 witness: evaluated with `Verbose` on, where the note is surfaced. -/
theorem c8_note_iff_verbose_witness :
    ({ c8Options with Verbose := true } : Options).FeatureScaling = false ∧
    ({ c8Options with Verbose := true } : Options).WeakLearner ≠ WeakLearnerKind.axisAligned ∧
    ((Msg.noScalingNote ∈
        (main_function true true { c8Options with Verbose := true } sampleData 0 []
          sampleTreeAt).trace
      ↔ ({ c8Options with Verbose := true } : Options).Verbose = true) ∧
    (main_function true true { c8Options with Verbose := true } sampleData 0 []
      sampleTreeAt).featureStats = []) :=
  ⟨rfl, by decide,
    c8_note_iff_verbose true true { c8Options with Verbose := true } sampleData 0 []
      sampleTreeAt rfl (by decide)⟩

end SherwoodMex
